import Mathlib

/-!
Verification of the gumayusi-vote-tracker server (src/server.py) against its
natural-language specification.

The Python module is shallowly embedded: each global mutable structure
becomes a field of an explicit state record, and each function that the
claims touch becomes a pure Lean function on that state.  Network calls and
other external effects are passed in as explicit parameters (response
traces, call outcomes), so one Lean evaluation step corresponds to one
execution of the corresponding Python code path with those outcomes.
Python strings are modelled as Lean String or List Char, Python ints as
Nat / Int, and Python floats (timestamps, the velocity computation) as ℚ;
the float-vs-rational gap does not affect any value stated here at the
precision the claims use (one decimal digit).
-/

namespace VoteTracker

/-- A poll option as assembled by fetch_poll_data: id, name, image, votes. -/
structure Candidate where
  id : String
  name : String
  image : String
  votes : Nat
deriving DecidableEq

/-- One entry of the questionOptionResults list of the results endpoint. -/
structure OptionResult where
  questionOptionId : String
  content : String
  images : List String
  numberOfSelectors : Nat
deriving DecidableEq

/-- The body of a successful poll-results response. -/
structure ResultSet where
  questionOptionResults : List OptionResult
deriving DecidableEq

/-- The body of a successful poll-metadata response (title, body, mainImage). -/
structure Metadata where
  title : String
  body : String
  mainImage : String
deriving DecidableEq

/-! ## C1: the 401-refresh-retry structure of fetch_poll_results

fetch_poll_results issues a GET; on status 401 it calls try_refresh_token
and, when that returns True, calls itself recursively with no retry bound
(server.py line 247).  We embed one tick as a function of the trace of
upstream results-responses and the trace of refresh outcomes (True when
try_refresh_token succeeds, either by refresh or by its re-login
fallback).  The function returns the fetch result together with the number
of results requests issued and the number of refresh attempts made. -/

/-- One upstream response to the results request. -/
inductive RespEvent where
  | ok (rs : ResultSet)
  | unauthorized
  | otherStatus (code : Nat)
  | netError
deriving DecidableEq

/-- Embedding of fetch_poll_results (server.py lines 226-252), assuming
ensure_auth succeeds.  Consumes one response per request issued; on a 401
followed by a successful refresh it recurses exactly as the Python code
does.  Returns (result, results requests issued, refresh attempts made). -/
def fetch_poll_results : List RespEvent → List Bool → Option ResultSet × Nat × Nat
  | [], _ => (none, 0, 0)
  | RespEvent.ok rs :: _, _ => (some rs, 1, 0)
  | RespEvent.unauthorized :: rest, refreshOk :: rtail =>
    if refreshOk then
      let r := fetch_poll_results rest rtail
      (r.1, r.2.1 + 1, r.2.2 + 1)
    else (none, 1, 1)
  | RespEvent.unauthorized :: _, [] => (none, 1, 1)
  | RespEvent.otherStatus _ :: _, _ => (none, 1, 0)
  | RespEvent.netError :: _, _ => (none, 1, 0)

/-- C1: the claim says a 401 triggers exactly one refresh attempt and at
most one retried request per tick, so that the number of results requests
in a tick is bounded.  The code instead retries by unbounded recursion: a
run of n consecutive 401 responses with successful refreshes issues n + 1
results requests and n refresh attempts in a single tick; in particular
the trace 401, 401, 200 yields 3 requests and 2 refreshes, already more
than the claimed bound. -/
theorem c1_auth_retry_recursion_unbounded :
    (∀ (n : Nat) (rs : ResultSet),
      fetch_poll_results (List.replicate n RespEvent.unauthorized ++ [RespEvent.ok rs])
          (List.replicate n true) = (some rs, n + 1, n)) ∧
    fetch_poll_results
        [RespEvent.unauthorized, RespEvent.unauthorized, RespEvent.ok ⟨[]⟩]
        [true, true] = (some ⟨[]⟩, 3, 2) := by
  constructor
  · intro n rs
    induction n with
    | zero => rfl
    | succ k ih => simp [List.replicate_succ, fetch_poll_results, ih]
  · rfl

/-! ## Python string helpers

server.py manipulates timestamp labels with str.strip and slicing; we model
those operations on the underlying character sequences. -/

/-- Python str.strip(): drop whitespace from both ends of the character list. -/
def pyStrip (l : List Char) : List Char :=
  ((l.dropWhile Char.isWhitespace).reverse.dropWhile Char.isWhitespace).reverse

/-- str.strip() on a String. -/
def pyStripStr (s : String) : String :=
  ⟨pyStrip s.toList⟩

/-- Python s.count(c). -/
def countChar (c : Char) (l : List Char) : Nat :=
  (l.filter (fun x => x = c)).length

/-- Python s.replace(c, two-quote empty string): drop every occurrence of c. -/
def removeChar (c : Char) (l : List Char) : List Char :=
  l.filter (fun x => x ≠ c)

/-! ## The Google Sheet writer (server.py lines 459-743)

The remote sink state collects the globals the writer code reads and
writes: the initialized flag, the persisted data rows (the header row that
_init_gsheet guarantees is kept implicit, so row_count = rows.length + 1),
the locally tracked row counter, the bounded write queue (a deque with
maxlen 500) and the A1 cell of the _throttle worksheet. -/

/-- One persisted row: [timestamp label, doran votes, doran diff,
gumayusi votes, gumayusi diff, gap]. -/
structure Row where
  ts : String
  doran : Nat
  doranDiff : Int
  guma : Nat
  gumaDiff : Int
  gap : Int
deriving DecidableEq

/-- The remote-sink globals of server.py. -/
structure GsheetState where
  initialized : Bool
  rows : List Row
  rowCounter : Nat
  queue : List Row
  throttleMarker : Option String
deriving DecidableEq

/-- minute_key inside _gsheet_last_row_same_minute (server.py line 665):
the first 16 characters of the label when it is at least 16 long. -/
def minute_key (s : String) : String :=
  if 16 ≤ s.toList.length then ⟨s.toList.take 16⟩ else s

/-- Embedding of _gsheet_last_row_same_minute (server.py lines 653-669):
true when the sheet is initialized, holds at least one data row, both the
stripped last label and the new label are nonempty, and the two labels
agree on their minute prefix.  It reads only the initialized flag and the
persisted rows. -/
def last_row_same_minute (initialized : Bool) (rows : List Row) (new_ts : String) : Bool :=
  if initialized = false then false
  else
    match rows.getLast? with
    | none => false
    | some lastRow =>
      let last_ts := pyStripStr lastRow.ts
      if last_ts = "" ∨ new_ts = "" then false
      else minute_key last_ts == minute_key new_ts

/-- Embedding of a successful or failed _init_gsheet call (server.py lines
485-527): on success it sets the initialized flag, recounts the rows from
column A (header plus data rows) and creates the throttle cell when it is
missing; on failure it leaves the state unchanged. -/
def init_gsheet (gs : GsheetState) (initOk : Bool) : GsheetState × Bool :=
  if initOk then
    ({ gs with
        initialized := true,
        rowCounter := gs.rows.length + 1,
        throttleMarker := (match gs.throttleMarker with
          | none => some "0"
          | some m => some m) }, true)
  else (gs, false)

/-- Outcome of the append / format / marker block of one drain, as seen at
the append_row call (server.py line 608): it succeeds, raises an error
whose text carries a 429 or Quota signal, or raises any other error. -/
inductive AppendOutcome where
  | ok
  | rateLimited
  | otherError
deriving DecidableEq

/-- What one iteration of the writer loop did (each wait event corresponds
to the sleep the code performs there). -/
inductive WriterEvent where
  | idleSleep
  | initFailWait
  | dedupSkip
  | appendedRow
  | backoff60
  | errorWait5
deriving DecidableEq

/-- Embedding of one iteration of the _gsheet_writer_thread loop body
(server.py lines 583-632).  The popped row is bound to a local variable in
the Python code; note that neither error branch re-enqueues it. -/
def writer_step (gs : GsheetState) (initOk : Bool)
    (o : AppendOutcome) (nowMarker : String) : GsheetState × WriterEvent :=
  if gs.queue.isEmpty then (gs, WriterEvent.idleSleep)
  else
    let ready := if gs.initialized then (gs, true) else init_gsheet gs initOk
    if ready.2 = false then (ready.1, WriterEvent.initFailWait)
    else
      match ready.1.queue with
      | [] => (ready.1, WriterEvent.idleSleep)
      | r :: rest =>
        let gs2 := { ready.1 with queue := rest }
        if last_row_same_minute gs2.initialized gs2.rows r.ts then
          (gs2, WriterEvent.dedupSkip)
        else
          match o with
          | AppendOutcome.ok =>
            ({ gs2 with
                rows := gs2.rows ++ [r],
                rowCounter := gs2.rowCounter + 1,
                throttleMarker := some nowMarker }, WriterEvent.appendedRow)
          | AppendOutcome.rateLimited => (gs2, WriterEvent.backoff60)
          | AppendOutcome.otherError =>
            ({ gs2 with initialized := false }, WriterEvent.errorWait5)

/-- The data row already persisted in the concrete C2 scenario. -/
def c2SheetRow : Row :=
  ⟨"2026-02-25 16:29:30", 95, 3, 86, 2, 9⟩

/-- The queued row whose append is rate limited in the C2 scenario. -/
def c2QueuedRow : Row :=
  ⟨"2026-02-25 16:30:05", 100, 5, 90, 4, 10⟩

/-- The remote-sink state of the C2 scenario: initialized, one persisted
data row from an earlier minute, and exactly one queued row. -/
def c2State : GsheetState :=
  { initialized := true, rows := [c2SheetRow], rowCounter := 2,
    queue := [c2QueuedRow], throttleMarker := some "1000" }

/-- C2: the claim (and the comment on server.py line 626) says a
rate-limited append leaves the row in the retry path, to be attempted
again after the 60 second cooldown.  The code pops the row off the queue
before appending and the 429 handler only sleeps, so after the backoff
iteration the row is in neither the queue nor the sheet: it has been
dropped.  The cooldown part does hold: the iteration ends in the 60 second
sleep and drains no further row. -/
theorem c2_rate_limited_row_dropped :
    (writer_step c2State true AppendOutcome.rateLimited "1060").2
        = WriterEvent.backoff60 ∧
    (writer_step c2State true AppendOutcome.rateLimited "1060").1.queue = [] ∧
    (writer_step c2State true AppendOutcome.rateLimited "1060").1.rows
        = [c2SheetRow] := by
  refine ⟨?_, ?_, ?_⟩ <;> decide

/-- C5: same-minute dedup.  For two successive drains of queued rows whose
labels truncate to the same minute, the first drain appends its row and
the second is skipped by the dedup check against the last persisted row,
so at most one remote row is appended for that minute.  Stated as the two
full state equations of the two writer iterations: the first appends
exactly r1, the second (whatever its append outcome would be) drains r2
without appending anything. -/
theorem c5_same_minute_dedup
    (grows : List Row) (gcount : Nat) (gmark : Option String)
    (r1 r2 : Row) (rest : List Row) (o2 : AppendOutcome) (t1 t2 : String)
    (h1 : last_row_same_minute true grows r1.ts = false)
    (hts1 : pyStripStr r1.ts ≠ "")
    (hts2 : r2.ts ≠ "")
    (hmk : minute_key (pyStripStr r1.ts) = minute_key r2.ts) :
    writer_step ⟨true, grows, gcount, r1 :: r2 :: rest, gmark⟩ true AppendOutcome.ok t1
      = (⟨true, grows ++ [r1], gcount + 1, r2 :: rest, some t1⟩, WriterEvent.appendedRow) ∧
    writer_step ⟨true, grows ++ [r1], gcount + 1, r2 :: rest, some t1⟩ true o2 t2
      = (⟨true, grows ++ [r1], gcount + 1, rest, some t1⟩, WriterEvent.dedupSkip) := by
  have hded : last_row_same_minute true (grows ++ [r1]) r2.ts = true := by
    unfold last_row_same_minute
    rw [List.getLast?_concat]
    simp [hts1, hts2, hmk]
  constructor
  · simp [writer_step, h1]
  · simp [writer_step, hded]

/-- C5 witness: the two labels of the spec example, 2026-02-25 16:29:30
and 2026-02-25 16:29:45, land in the same minute; starting from an empty
sheet the first drain appends its row and the second is deduplicated. -/
theorem c5_same_minute_dedup_witness :
    writer_step ⟨true, [], 1, [⟨"2026-02-25 16:29:30", 100, 5, 90, 4, 10⟩,
        ⟨"2026-02-25 16:29:45", 101, 6, 90, 4, 11⟩], none⟩ true AppendOutcome.ok "1000"
      = (⟨true, [⟨"2026-02-25 16:29:30", 100, 5, 90, 4, 10⟩], 2,
          [⟨"2026-02-25 16:29:45", 101, 6, 90, 4, 11⟩], some "1000"⟩,
         WriterEvent.appendedRow) ∧
    writer_step ⟨true, [⟨"2026-02-25 16:29:30", 100, 5, 90, 4, 10⟩], 2,
        [⟨"2026-02-25 16:29:45", 101, 6, 90, 4, 11⟩], some "1000"⟩ true
        AppendOutcome.ok "1001"
      = (⟨true, [⟨"2026-02-25 16:29:30", 100, 5, 90, 4, 10⟩], 2, [], some "1000"⟩,
         WriterEvent.dedupSkip) := by
  have h := c5_same_minute_dedup [] 1 none
      ⟨"2026-02-25 16:29:30", 100, 5, 90, 4, 10⟩
      ⟨"2026-02-25 16:29:45", 101, 6, 90, 4, 11⟩ [] AppendOutcome.ok "1000" "1001"
      (by decide) (by decide) (by decide) (by decide)
  simpa using h

/-! ## C7: the recovery vote-count parser (server.py lines 832-843)

parse_int strips the cell value, removes thousands separators according to
the shape of the string, and hands the result to the Python int builtin.
We model the value as its character sequence and the int builtin as a
parser of an optional sign followed by a nonempty digit run (the grouping
underscore extension of the builtin is not modelled; no claim input uses
it). -/

/-- Numeric value of a digit run, as the int builtin computes it. -/
def digitsVal (l : List Char) : Nat :=
  l.foldl (fun a c => a * 10 + (c.toNat - 48)) 0

/-- Embedding of the Python int builtin on a string: surrounding
whitespace is allowed, then an optional sign and a nonempty digit run;
anything else raises, modelled as none. -/
def pyInt (l : List Char) : Option Int :=
  match pyStrip l with
  | [] => none
  | c :: rest =>
    if c = '-' then
      if rest ≠ [] ∧ rest.all Char.isDigit then some (-(digitsVal rest : Int)) else none
    else if c = '+' then
      if rest ≠ [] ∧ rest.all Char.isDigit then some ((digitsVal rest : Int)) else none
    else if (c :: rest).all Char.isDigit then some ((digitsVal (c :: rest) : Int))
    else none

/-- Embedding of parse_int (server.py lines 832-843): strip, then remove
dots when more than one dot is present, else remove commas when both a dot
and a comma are present, else remove commas and dots; finally apply the
int builtin. -/
def parse_int (val : List Char) : Option Int :=
  let s := pyStrip val
  let s2 :=
    if 1 < countChar '.' s then removeChar '.' s
    else if ('.' ∈ s) ∧ (',' ∈ s) then removeChar ',' s
    else removeChar '.' (removeChar ',' s)
  pyInt s2

/-- A numeral written as digit groups joined by a separator character;
used only to describe the input class of claim C7. -/
def sepJoin (sep : Char) : List (List Char) → List Char
  | [] => []
  | [g] => g
  | g :: g2 :: rest => g ++ sep :: sepJoin sep (g2 :: rest)

/-- dropWhile is the identity when the predicate fails on every element. -/
theorem dropWhile_eq_self_of (p : Char → Bool) (l : List Char)
    (h : ∀ c ∈ l, p c = false) : l.dropWhile p = l := by
  cases l with
  | nil => rfl
  | cons a t => simp [List.dropWhile_cons, h a (List.mem_cons_self a t)]

/-- pyStrip is the identity on whitespace-free strings. -/
theorem pyStrip_eq_self {l : List Char} (h : ∀ c ∈ l, c.isWhitespace = false) :
    pyStrip l = l := by
  unfold pyStrip
  rw [dropWhile_eq_self_of _ _ h,
    dropWhile_eq_self_of _ _ (fun c hc => h c (List.mem_reverse.mp hc)),
    List.reverse_reverse]

/-- removeChar is the identity when the character does not occur. -/
theorem removeChar_eq_self {a : Char} {l : List Char} (h : ∀ c ∈ l, c ≠ a) :
    removeChar a l = l := by
  unfold removeChar
  rw [List.filter_eq_self]
  intro c hc
  simp [h c hc]

/-- countChar is zero when the character does not occur. -/
theorem countChar_eq_zero {a : Char} {l : List Char} (h : ∀ c ∈ l, c ≠ a) :
    countChar a l = 0 := by
  unfold countChar
  rw [List.length_eq_zero, List.filter_eq_nil_iff]
  intro c hc
  simp [h c hc]

/-- Every character of a separator-joined numeral is the separator or
comes from one of the groups. -/
theorem mem_sepJoin {sep : Char} :
    ∀ {groups : List (List Char)} {x : Char}, x ∈ sepJoin sep groups →
      x = sep ∨ ∃ g ∈ groups, x ∈ g
  | [], _, hx => by simp [sepJoin] at hx
  | [g], x, hx => by
      simp [sepJoin] at hx
      exact Or.inr ⟨g, by simp, hx⟩
  | g :: g2 :: rest, x, hx => by
      rw [sepJoin] at hx
      rcases List.mem_append.mp hx with hg | hs
      · exact Or.inr ⟨g, by simp, hg⟩
      · rcases List.mem_cons.mp hs with rfl | htail
        · exact Or.inl rfl
        · rcases mem_sepJoin htail with h | ⟨g', hg', hx'⟩
          · exact Or.inl h
          · exact Or.inr ⟨g', List.mem_cons_of_mem _ hg', hx'⟩

/-- Removing the separator from a separator-joined numeral flattens it,
provided the separator occurs in no group. -/
theorem removeChar_sepJoin (sep : Char) :
    ∀ groups : List (List Char), (∀ g ∈ groups, ∀ c ∈ g, c ≠ sep) →
      removeChar sep (sepJoin sep groups) = groups.flatten
  | [], _ => by simp [sepJoin, removeChar]
  | [g], h => by
      simp only [sepJoin, List.flatten, List.append_nil]
      exact removeChar_eq_self (h g (by simp))
  | g :: g2 :: rest, h => by
      rw [sepJoin]
      unfold removeChar
      rw [List.filter_append]
      have h1 : List.filter (fun x => x ≠ sep) g = g := by
        rw [List.filter_eq_self]
        intro c hc
        simp [h g (by simp) c hc]
      have h2 : removeChar sep (sepJoin sep (g2 :: rest)) = (g2 :: rest).flatten :=
        removeChar_sepJoin sep (g2 :: rest)
          (fun g' hg' => h g' (List.mem_cons_of_mem _ hg'))
      rw [h1]
      simp only [List.filter_cons]
      have hsep : ((sep ≠ sep) : Bool) = false := by simp
      rw [hsep]
      unfold removeChar at h2
      rw [h2]
      rfl

/-- Characters of the flattening come from the groups. -/
theorem mem_flatten_groups {groups : List (List Char)} {x : Char}
    (hx : x ∈ groups.flatten) : ∃ g ∈ groups, x ∈ g := by
  rcases List.mem_flatten.mp hx with ⟨g, hg, hxg⟩
  exact ⟨g, hg, hxg⟩

/-- A digit is not a whitespace character. -/
theorem digit_not_ws {c : Char} (h : c.isDigit = true) : c.isWhitespace = false := by
  simp only [Char.isDigit, Bool.and_eq_true, decide_eq_true_eq] at h
  simp only [Char.isWhitespace]
  have h1 : decide (c = ' ') = false := by
    apply decide_eq_false
    rintro rfl
    exact absurd h.1 (by decide)
  have h2 : decide (c = '\t') = false := by
    apply decide_eq_false
    rintro rfl
    exact absurd h.1 (by decide)
  have h3 : decide (c = '\x0d') = false := by
    apply decide_eq_false
    rintro rfl
    exact absurd h.1 (by decide)
  have h4 : decide (c = '\n') = false := by
    apply decide_eq_false
    rintro rfl
    exact absurd h.1 (by decide)
  rw [h1, h2, h3, h4]
  rfl

/-- A digit is neither a dot nor a comma. -/
theorem digit_ne_sep {c : Char} (h : c.isDigit = true) : c ≠ '.' ∧ c ≠ ',' := by
  constructor <;> rintro rfl <;> simp [Char.isDigit] at h

/-- The int builtin on a nonempty digit run returns its numeric value. -/
theorem pyInt_digits {l : List Char} (hne : l ≠ [])
    (hd : ∀ c ∈ l, c.isDigit = true) :
    pyInt l = some (digitsVal l : Int) := by
  unfold pyInt
  rw [pyStrip_eq_self (fun c hc => digit_not_ws (hd c hc))]
  cases l with
  | nil => exact absurd rfl hne
  | cons c rest =>
    have hc := hd c (List.mem_cons_self c rest)
    have hcd : c ≠ '-' := by rintro rfl; simp [Char.isDigit] at hc
    have hcp : c ≠ '+' := by rintro rfl; simp [Char.isDigit] at hc
    have hall : (c :: rest).all Char.isDigit = true := by
      rw [List.all_eq_true]
      exact hd
    simp [hcd, hcp, hall]

/-- When no comma occurs, parse_int removes all dots and parses. -/
theorem parse_int_no_comma {l : List Char}
    (hws : ∀ c ∈ l, c.isWhitespace = false)
    (hnc : ∀ c ∈ l, c ≠ ',') :
    parse_int l = pyInt (removeChar '.' l) := by
  unfold parse_int
  rw [pyStrip_eq_self hws]
  by_cases h1 : 1 < countChar '.' l
  · simp [h1]
  · have h2 : ¬ (('.' ∈ l) ∧ (',' ∈ l)) := fun h => hnc _ h.2 rfl
    simp only [h1, if_false, h2, removeChar_eq_self hnc]

/-- When no dot occurs, parse_int removes all commas and parses. -/
theorem parse_int_no_dot {l : List Char}
    (hws : ∀ c ∈ l, c.isWhitespace = false)
    (hnd : ∀ c ∈ l, c ≠ '.') :
    parse_int l = pyInt (removeChar ',' l) := by
  unfold parse_int
  rw [pyStrip_eq_self hws]
  have hc0 : countChar '.' l = 0 := countChar_eq_zero hnd
  have h1 : ¬ (1 < countChar '.' l) := by simp [hc0]
  have h2 : ¬ (('.' ∈ l) ∧ (',' ∈ l)) := fun h => hnd _ h.1 rfl
  have h3 : removeChar '.' (removeChar ',' l) = removeChar ',' l := by
    apply removeChar_eq_self
    intro c hc
    apply hnd
    unfold removeChar at hc
    exact List.mem_of_mem_filter hc
  simp only [h1, if_false, h2, h3]

/-- C7: parse_int maps every numeral written as nonempty digit groups
joined by dots, or by commas, or written plainly, to the integer denoted
by the concatenated digits — so all separator styles of the same numeral
parse to the same integer.  (This covers the thousands-separated class of
the claim, where the groups after the first have three digits.) -/
theorem c7_recovery_parse (groups : List (List Char)) (hne : groups ≠ [])
    (hdig : ∀ g ∈ groups, g ≠ [] ∧ ∀ c ∈ g, c.isDigit = true) :
    parse_int (sepJoin '.' groups) = some (digitsVal groups.flatten : Int) ∧
    parse_int (sepJoin ',' groups) = some (digitsVal groups.flatten : Int) ∧
    parse_int groups.flatten = some (digitsVal groups.flatten : Int) := by
  have hflat_digit : ∀ c ∈ groups.flatten, c.isDigit = true := by
    intro c hc
    rcases mem_flatten_groups hc with ⟨g, hg, hcg⟩
    exact (hdig g hg).2 c hcg
  have hflat_ne : groups.flatten ≠ [] := by
    cases groups with
    | nil => exact absurd rfl hne
    | cons g rest =>
      have hg := (hdig g (List.mem_cons_self g rest)).1
      simp only [List.flatten_cons]
      intro h
      exact hg (List.append_eq_nil.mp h).1
  have hdot_mem : ∀ c ∈ sepJoin '.' groups, c = '.' ∨ c.isDigit = true := by
    intro c hc
    rcases mem_sepJoin hc with h | ⟨g, hg, hcg⟩
    · exact Or.inl h
    · exact Or.inr ((hdig g hg).2 c hcg)
  have hcom_mem : ∀ c ∈ sepJoin ',' groups, c = ',' ∨ c.isDigit = true := by
    intro c hc
    rcases mem_sepJoin hc with h | ⟨g, hg, hcg⟩
    · exact Or.inl h
    · exact Or.inr ((hdig g hg).2 c hcg)
  have hsep_dot : ∀ g ∈ groups, ∀ c ∈ g, c ≠ '.' :=
    fun g hg c hc => (digit_ne_sep ((hdig g hg).2 c hc)).1
  have hsep_com : ∀ g ∈ groups, ∀ c ∈ g, c ≠ ',' :=
    fun g hg c hc => (digit_ne_sep ((hdig g hg).2 c hc)).2
  refine ⟨?_, ?_, ?_⟩
  · rw [parse_int_no_comma, removeChar_sepJoin '.' groups hsep_dot]
    · exact pyInt_digits hflat_ne hflat_digit
    · intro c hc
      rcases hdot_mem c hc with rfl | h
      · rfl
      · exact digit_not_ws h
    · intro c hc
      rcases hdot_mem c hc with rfl | h
      · decide
      · exact (digit_ne_sep h).2
  · rw [parse_int_no_dot, removeChar_sepJoin ',' groups hsep_com]
    · exact pyInt_digits hflat_ne hflat_digit
    · intro c hc
      rcases hcom_mem c hc with rfl | h
      · rfl
      · exact digit_not_ws h
    · intro c hc
      rcases hcom_mem c hc with rfl | h
      · decide
      · exact (digit_ne_sep h).1
  · rw [parse_int_no_comma, removeChar_eq_self
        (fun c hc => (digit_ne_sep (hflat_digit c hc)).1)]
    · exact pyInt_digits hflat_ne hflat_digit
    · exact fun c hc => digit_not_ws (hflat_digit c hc)
    · exact fun c hc => (digit_ne_sep (hflat_digit c hc)).2

/-- C7 witness: the inputs 2,596,698 and 2.596.698 and 2596698 of the
spec example all parse to the integer 2596698. -/
theorem c7_recovery_parse_witness :
    parse_int ("2,596,698".toList) = some 2596698 ∧
    parse_int ("2.596.698".toList) = some 2596698 ∧
    parse_int ("2596698".toList) = some 2596698 := by
  obtain ⟨hd, hc, hp⟩ := c7_recovery_parse [['2'], ['5', '9', '6'], ['6', '9', '8']]
      (by decide) (by decide)
  refine ⟨?_, ?_, ?_⟩
  · rw [show ("2,596,698".toList)
        = sepJoin ',' [['2'], ['5', '9', '6'], ['6', '9', '8']] from by decide, hc]
    decide
  · rw [show ("2.596.698".toList)
        = sepJoin '.' [['2'], ['5', '9', '6'], ['6', '9', '8']] from by decide, hd]
    decide
  · rw [show ("2596698".toList)
        = List.flatten [['2'], ['5', '9', '6'], ['6', '9', '8']] from by decide, hp]
    decide

/-! ## Day rollover (server.py lines 748-779)

_check_day_change reads the current KST date, compares it with the stored
date, and on a change snapshots the current leader and runner-up.  We pass
the formatted KST date of the call instant and the current candidate list
as parameters. -/

/-- The _prev_day_data record. -/
structure PrevDayData where
  date : Option String
  winner : Option String
  winner_votes : Nat
  runnerup : Option String
  runnerup_votes : Nat
  diff : Int
  loaded : Bool
deriving DecidableEq

/-- The day-rollover globals: _prev_day_data and _prev_day_kst_date. -/
structure DayState where
  fact : PrevDayData
  kstDate : Option String
deriving DecidableEq

/-- Stable insertion into a votes-descending list: the new element goes in
front of the first list element whose votes do not exceed it, so among
equal votes earlier-listed candidates stay first. -/
def insertDesc (c : Candidate) : List Candidate → List Candidate
  | [] => [c]
  | d :: rest => if d.votes ≤ c.votes then c :: d :: rest else d :: insertDesc c rest

/-- Python sorted(candidates, key votes, reverse) is a stable descending
sort; insertion sort with insertDesc realizes exactly that order. -/
def sortDesc : List Candidate → List Candidate
  | [] => []
  | c :: rest => insertDesc c (sortDesc rest)

/-- Embedding of _check_day_change (server.py lines 748-779).  First call
records the date only; a later call with a different date emits a fact
from the sorted current candidates when any are present — and advances
the stored date in every case. -/
def check_day_change (st : DayState) (todayKst : String)
    (candidates : List Candidate) : DayState :=
  match st.kstDate with
  | none => { st with kstDate := some todayKst }
  | some stored =>
    if todayKst ≠ stored then
      if candidates.isEmpty then { st with kstDate := some todayKst }
      else
        match sortDesc candidates with
        | [] => { st with kstDate := some todayKst }
        | w :: rest =>
          let runnerupName := match rest with
            | [] => "N/A"
            | r :: _ => r.name
          let runnerupVotes := match rest with
            | [] => 0
            | r :: _ => r.votes
          { fact :=
              { date := some stored,
                winner := some w.name,
                winner_votes := w.votes,
                runnerup := some runnerupName,
                runnerup_votes := runnerupVotes,
                diff := (w.votes : Int) - (runnerupVotes : Int),
                loaded := true },
            kstDate := some todayKst }
    else st

/-- C6: the first day-change check records the date and emits nothing, and
every later check on a new date with at least two candidates present emits
the fact for the stored (just-ended) date built from the head and second
element of the stable votes-descending sort, then advances the stored
date. -/
theorem c6_day_rollover
    (f : PrevDayData) (stored today : String) (cands : List Candidate)
    (w ru : Candidate) (tl : List Candidate)
    (hne : today ≠ stored)
    (hsort : sortDesc cands = w :: ru :: tl) :
    (∀ (g : PrevDayData) (t : String) (cs : List Candidate),
      check_day_change ⟨g, none⟩ t cs = ⟨g, some t⟩) ∧
    check_day_change ⟨f, some stored⟩ today cands =
      ⟨{ date := some stored, winner := some w.name, winner_votes := w.votes,
         runnerup := some ru.name, runnerup_votes := ru.votes,
         diff := (w.votes : Int) - (ru.votes : Int), loaded := true },
       some today⟩ := by
  constructor
  · intro g t cs
    rfl
  · have hcne : cands.isEmpty = false := by
      cases cands with
      | nil => simp [sortDesc] at hsort
      | cons a b => rfl
    simp [check_day_change, hne, hcne, hsort]

/-- C6 witness: stored date 2026-02-24, check on 2026-02-25 with
candidates A at 500 and B at 300 votes emits the fact of the spec example
with diff 200. -/
theorem c6_day_rollover_witness :
    check_day_change
        ⟨⟨none, none, 0, none, 0, 0, false⟩, some "2026-02-24"⟩ "2026-02-25"
        [⟨"a1", "A", "", 500⟩, ⟨"b1", "B", "", 300⟩]
      = ⟨⟨some "2026-02-24", some "A", 500, some "B", 300, 200, true⟩,
         some "2026-02-25"⟩ := by
  have h := c6_day_rollover ⟨none, none, 0, none, 0, 0, false⟩ "2026-02-24"
      "2026-02-25" [⟨"a1", "A", "", 500⟩, ⟨"b1", "B", "", 300⟩]
      ⟨"a1", "A", "", 500⟩ ⟨"b1", "B", "", 300⟩ []
      (by decide) (by decide)
  rw [h.2]
  decide

/-- A run of successive day-change checks. -/
def run_day_checks (st : DayState) (inputs : List (String × List Candidate)) : DayState :=
  inputs.foldl (fun s p => check_day_change s p.1 p.2) st

/-- One day-change check whose date differs from d can neither store the
date d nor emit a fact dated d, when neither was there before. -/
theorem check_day_change_preserves (d : String) (s : DayState) (t : String)
    (cs : List Candidate) (ht : t ≠ d)
    (h1 : s.kstDate ≠ some d) (h2 : s.fact.date ≠ some d) :
    (check_day_change s t cs).kstDate ≠ some d ∧
    (check_day_change s t cs).fact.date ≠ some d := by
  have hst : (some t : Option String) ≠ some d := by simpa using ht
  cases hs : s.kstDate with
  | none =>
    simp only [check_day_change, hs]
    exact ⟨hst, h2⟩
  | some stored =>
    have hstored : (some stored : Option String) ≠ some d := hs ▸ h1
    simp only [check_day_change, hs]
    by_cases hts : t ≠ stored
    · rw [if_pos hts]
      cases hemp : cs.isEmpty with
      | true =>
        simp only [if_true]
        exact ⟨hst, h2⟩
      | false =>
        simp only [Bool.false_eq_true, if_false]
        cases hsort : sortDesc cs with
        | nil => exact ⟨hst, h2⟩
        | cons w rest => exact ⟨hst, hstored⟩
    · rw [if_neg hts]
      exact ⟨h1, h2⟩

/-- Checks whose dates all differ from d never produce a state whose
stored date or fact date is d. -/
theorem run_day_checks_avoids (d : String) :
    ∀ (inputs : List (String × List Candidate)) (s : DayState),
      s.kstDate ≠ some d → s.fact.date ≠ some d →
      (∀ p ∈ inputs, p.1 ≠ d) →
      (run_day_checks s inputs).kstDate ≠ some d ∧
      (run_day_checks s inputs).fact.date ≠ some d
  | [], _, h1, h2, _ => ⟨h1, h2⟩
  | p :: rest, s, h1, h2, hall => by
      have hp := check_day_change_preserves d s p.1 p.2
        (hall p (List.mem_cons_self p rest)) h1 h2
      have htail := run_day_checks_avoids d rest (check_day_change s p.1 p.2)
        hp.1 hp.2 (fun q hq => hall q (List.mem_cons_of_mem _ hq))
      simpa [run_day_checks] using htail

/-- C9: a day change observed while the candidate list is empty emits no
fact but still advances the stored date, and since every later check
carries a date other than the ended day d, no later check can ever emit a
fact for d: the fact for that day is permanently lost to the live
detector. -/
theorem c9_empty_candidates_rollover
    (f : PrevDayData) (d today : String)
    (later : List (String × List Candidate))
    (hne : today ≠ d) (hf : f.date ≠ some d)
    (hlater : ∀ p ∈ later, p.1 ≠ d) :
    check_day_change ⟨f, some d⟩ today [] = ⟨f, some today⟩ ∧
    (run_day_checks (check_day_change ⟨f, some d⟩ today []) later).fact.date
      ≠ some d := by
  have hstep : check_day_change ⟨f, some d⟩ today [] = ⟨f, some today⟩ := by
    simp [check_day_change, hne]
  refine ⟨hstep, ?_⟩
  rw [hstep]
  exact (run_day_checks_avoids d later ⟨f, some today⟩ (by simpa using hne)
    hf hlater).2

/-- C9 witness: with an empty candidate list at the 2026-02-24 to
2026-02-25 rollover, the stored date advances without a fact, and a later
check on 2026-02-26 leaves no fact dated 2026-02-24. -/
theorem c9_empty_candidates_rollover_witness :
    check_day_change ⟨⟨none, none, 0, none, 0, 0, false⟩, some "2026-02-24"⟩
        "2026-02-25" []
      = ⟨⟨none, none, 0, none, 0, 0, false⟩, some "2026-02-25"⟩ ∧
    (run_day_checks (check_day_change ⟨⟨none, none, 0, none, 0, 0, false⟩,
        some "2026-02-24"⟩ "2026-02-25" [])
        [("2026-02-26", [⟨"a1", "A", "", 500⟩])]).fact.date
      ≠ some "2026-02-24" :=
  c9_empty_candidates_rollover ⟨none, none, 0, none, 0, 0, false⟩
      "2026-02-24" "2026-02-25" [("2026-02-26", [⟨"a1", "A", "", 500⟩])]
      (by decide) (by decide) (by decide)

/-! ## Cold-start recovery of the previous-day fact (server.py lines 782-871)

_load_prev_day_from_gsheet guards itself with the _prev_day_loaded flag,
sets the flag before attempting the recovery, and then runs a fallible
body.  The body outcome is passed as a parameter: the init call can fail
(before the stored date is set), the scan can find nothing usable (after
the stored date is set), or the scan finds the two tracked counts of the
last row of yesterday. -/

/-- Outcome of the recovery body of _load_prev_day_from_gsheet. -/
inductive LoadOutcome where
  | initFail
  | sheetTooSmall
  | noYesterdayRow
  | rowTooShort
  | scanFailure
  | found (doranVotes gumaVotes : Nat)
deriving DecidableEq

/-- Embedding of _load_prev_day_from_gsheet plus the _prev_day_loaded
flag.  Returns the new day state and the new flag. -/
def load_prev_day (day : DayState) (loaded : Bool)
    (todayKst yesterdayKst : String) (o : LoadOutcome) : DayState × Bool :=
  if loaded then (day, loaded)
  else
    match o with
    | LoadOutcome.initFail => (day, true)
    | LoadOutcome.sheetTooSmall => ({ day with kstDate := some todayKst }, true)
    | LoadOutcome.noYesterdayRow => ({ day with kstDate := some todayKst }, true)
    | LoadOutcome.rowTooShort => ({ day with kstDate := some todayKst }, true)
    | LoadOutcome.scanFailure => ({ day with kstDate := some todayKst }, true)
    | LoadOutcome.found d g =>
      if g ≤ d then
        ({ fact := { date := some yesterdayKst,
                     winner := some "T1 Doran",
                     winner_votes := d,
                     runnerup := some "HLE Gumayusi",
                     runnerup_votes := g,
                     diff := (d : Int) - (g : Int),
                     loaded := true },
           kstDate := some todayKst }, true)
      else
        ({ fact := { date := some yesterdayKst,
                     winner := some "HLE Gumayusi",
                     winner_votes := g,
                     runnerup := some "T1 Doran",
                     runnerup_votes := d,
                     diff := (g : Int) - (d : Int),
                     loaded := true },
           kstDate := some todayKst }, true)

/-- C10: the recovery runs its body at most once per process.  Whatever
the first call did, a second call with any arguments is a no-op, because
every first-call branch leaves the flag set; and when the first attempt
fails (any non-found outcome) the previous-day fact stays unloaded — the
failed recovery is never retried. -/
theorem c10_recovery_runs_once
    (day : DayState) (t y : String) (o : LoadOutcome)
    (hfail : ∀ d g, o ≠ LoadOutcome.found d g)
    (hun : day.fact.loaded = false) :
    (∀ (day2 : DayState) (loaded2 : Bool) (t1 y1 t2 y2 : String)
        (o1 o2 : LoadOutcome),
      load_prev_day (load_prev_day day2 loaded2 t1 y1 o1).1
          (load_prev_day day2 loaded2 t1 y1 o1).2 t2 y2 o2
        = load_prev_day day2 loaded2 t1 y1 o1) ∧
    (load_prev_day day false t y o).1.fact.loaded = false := by
  constructor
  · intro day2 loaded2 t1 y1 t2 y2 o1 o2
    cases loaded2 with
    | true => simp [load_prev_day]
    | false =>
      cases o1 with
      | found d g =>
        by_cases hdg : g ≤ d <;> simp [load_prev_day, hdg]
      | initFail => simp [load_prev_day]
      | sheetTooSmall => simp [load_prev_day]
      | noYesterdayRow => simp [load_prev_day]
      | rowTooShort => simp [load_prev_day]
      | scanFailure => simp [load_prev_day]
  · cases o with
    | found d g => exact absurd rfl (hfail d g)
    | initFail => simpa [load_prev_day] using hun
    | sheetTooSmall => simpa [load_prev_day] using hun
    | noYesterdayRow => simpa [load_prev_day] using hun
    | rowTooShort => simpa [load_prev_day] using hun
    | scanFailure => simpa [load_prev_day] using hun

/-- C10 witness: a first call whose sheet scan finds no yesterday row
leaves the fact unloaded, and the immediately following call (even one
that would find data) is a no-op. -/
theorem c10_recovery_runs_once_witness :
    (load_prev_day
        (load_prev_day ⟨⟨none, none, 0, none, 0, 0, false⟩, none⟩ false
          "2026-02-25" "2026-02-24" LoadOutcome.noYesterdayRow).1
        (load_prev_day ⟨⟨none, none, 0, none, 0, 0, false⟩, none⟩ false
          "2026-02-25" "2026-02-24" LoadOutcome.noYesterdayRow).2
        "2026-02-25" "2026-02-24" (LoadOutcome.found 500 300)
      = load_prev_day ⟨⟨none, none, 0, none, 0, 0, false⟩, none⟩ false
          "2026-02-25" "2026-02-24" LoadOutcome.noYesterdayRow) ∧
    (load_prev_day ⟨⟨none, none, 0, none, 0, 0, false⟩, none⟩ false
        "2026-02-25" "2026-02-24" LoadOutcome.noYesterdayRow).1.fact.loaded
      = false := by
  have h := c10_recovery_runs_once ⟨⟨none, none, 0, none, 0, 0, false⟩, none⟩
      "2026-02-25" "2026-02-24" LoadOutcome.noYesterdayRow
      (by intro d g hx; cases hx) rfl
  exact ⟨h.1 ⟨⟨none, none, 0, none, 0, 0, false⟩, none⟩ false
      "2026-02-25" "2026-02-24" "2026-02-25" "2026-02-24"
      LoadOutcome.noYesterdayRow (LoadOutcome.found 500 300), h.2⟩

/-! ## The orchestrator state and fetch_poll_data (server.py lines 255-318)

A tick of the long-lived (non-serverless) mode: datetime.now is passed in
as a pair of the epoch-seconds instant (ℚ, as time.time) and its
formatted label, and the two upstream fetch results as Options.  The
model is total, mirroring the catch-all error handling of the tick. -/

/-- A datetime value as the code consumes it: an instant and its
formatted Y-m-d H:M:S label. -/
structure Stamp where
  sec : ℚ
  label : String
deriving DecidableEq

/-- One entry of vote_history. -/
structure Snapshot where
  tsSec : ℚ
  tsLabel : String
  candidates : List Candidate
  total : Nat
deriving DecidableEq

/-- The current_data dict of server.py. -/
structure CurrentData where
  poll_title : String
  poll_body : String
  poll_image : String
  candidates : List Candidate
  total_votes : Nat
  last_updated : Option Stamp
  error : Option String
deriving DecidableEq

/-- The module globals of server.py that the fetch-write path touches. -/
structure ServerState where
  vote_history : List Snapshot
  current_data : CurrentData
  last_write_time : ℚ
  last_write_snapshot : Option (Nat × Nat)
  xlsx_rows : List Row
  gs : GsheetState
  day : DayState
  prev_day_loaded : Bool
deriving DecidableEq

/-- WRITE_INTERVAL default (60 seconds). -/
def WRITE_INTERVAL : ℚ := 60

/-- vote_history capacity (deque maxlen 17280). -/
def HISTORY_CAPACITY : Nat := 17280

/-- _gsheet_queue capacity (deque maxlen 500). -/
def GSHEET_QUEUE_CAPACITY : Nat := 500

/-- Appending to a deque with maxlen: the oldest entries are dropped when
the capacity is exceeded. -/
def dequeSnoc {α : Type} (cap : Nat) (q : List α) (a : α) : List α :=
  let q2 := q ++ [a]
  if cap < q2.length then q2.drop (q2.length - cap) else q2

/-- Building one candidate from one questionOptionResults entry
(server.py lines 268-274): image defaults to the empty string when the
images list is absent or empty. -/
def candidate_of_option (o : OptionResult) : Candidate :=
  { id := o.questionOptionId, name := o.content,
    image := o.images.headD "", votes := o.numberOfSelectors }

/-- The two tracked names (TRACK_NAMES, server.py line 323). -/
def doranName : String := "T1 Doran"

/-- The second tracked name. -/
def gumaName : String := "Hanwha Life Esports Gumayusi"

/-- The tracked dict of the write path: stripped name to votes, built left
to right, so a later candidate with the same stripped name wins — the
value looked up is the votes of the last matching candidate. -/
def trackedVotes (cands : List Candidate) (key : String) : Option Nat :=
  ((cands.filter (fun c => pyStripStr c.name = key)).getLast?).map (fun c => c.votes)

/-- len(tracked) is at least 2 exactly when both tracked names are
present, since TRACK_NAMES has exactly two entries. -/
def hasTrackedPair (cands : List Candidate) : Bool :=
  (trackedVotes cands doranName).isSome && (trackedVotes cands gumaName).isSome

/-- The row both sinks build (server.py lines 380-399 and 691-712): label
from the fetch timestamp, the two tracked counts, the diffs against the
last written baseline (or the second-to-last snapshot, or zero), and the
gap. -/
def build_row (cd : CurrentData) (hist : List Snapshot)
    (baseline : Option (Nat × Nat)) (nowLabel : String) : Row :=
  let doran := (trackedVotes cd.candidates doranName).getD 0
  let guma := (trackedVotes cd.candidates gumaName).getD 0
  let gap : Int := (doran : Int) - (guma : Int)
  let label := match cd.last_updated with
    | some t => t.label
    | none => nowLabel
  let diffs : Int × Int :=
    match baseline with
    | some bl => ((doran : Int) - (bl.1 : Int), (guma : Int) - (bl.2 : Int))
    | none =>
      match hist.reverse.get? 1 with
      | some prevSnap =>
        ((doran : Int) - ((trackedVotes prevSnap.candidates doranName).getD doran : Int),
         (guma : Int) - ((trackedVotes prevSnap.candidates gumaName).getD guma : Int))
      | none => (0, 0)
  ⟨label, doran, diffs.1, guma, diffs.2, gap⟩

/-- Embedding of write_result_file (server.py lines 361-456): the local
sink gains one row unless no candidates or fewer than two tracked names
are present. -/
def write_result_file (cd : CurrentData) (hist : List Snapshot)
    (baseline : Option (Nat × Nat)) (xlsx : List Row) (nowLabel : String) : List Row :=
  if cd.candidates.isEmpty then xlsx
  else if hasTrackedPair cd.candidates then
    xlsx ++ [build_row cd hist baseline nowLabel]
  else xlsx

/-- Embedding of write_google_sheet in queued (non-serverless) mode
(server.py lines 672-743): returns the new queue.  The same early returns
apply; additionally the row is dropped when its minute equals the last
persisted row's. -/
def write_google_sheet (cd : CurrentData) (hist : List Snapshot)
    (baseline : Option (Nat × Nat)) (gs : GsheetState) (nowLabel : String) : List Row :=
  if cd.candidates.isEmpty then gs.queue
  else if hasTrackedPair cd.candidates then
    let row := build_row cd hist baseline nowLabel
    if last_row_same_minute gs.initialized gs.rows row.ts then gs.queue
    else dequeSnoc GSHEET_QUEUE_CAPACITY gs.queue row
  else gs.queue

/-- The soft error message of a failed results fetch. -/
def FETCH_FAIL_MSG : String := "Failed to fetch poll results. Retrying..."

/-- Embedding of fetch_poll_data in long-lived mode (server.py lines
255-318).  On a null result set only the soft error field is touched
(and only when it was not already set); on success the snapshot is
appended, current_data replaced with error cleared, and — when the write
interval has elapsed — both sinks receive the row and the throttle state
advances. -/
def fetch_poll_data (st : ServerState) (metadata : Option Metadata)
    (results : Option ResultSet) (nowTs : ℚ) (nowLabel : String) : ServerState :=
  match results with
  | none =>
    { st with current_data := { st.current_data with
        error := (match st.current_data.error with
          | none => some FETCH_FAIL_MSG
          | some e => some e) } }
  | some rs =>
    let candidates := rs.questionOptionResults.map candidate_of_option
    let total := (candidates.map (fun c => c.votes)).sum
    let snap : Snapshot := ⟨nowTs, nowLabel, candidates, total⟩
    let cd : CurrentData :=
      { poll_title := (match metadata with
          | some m => m.title
          | none => st.current_data.poll_title),
        poll_body := (match metadata with
          | some m => m.body
          | none => st.current_data.poll_body),
        poll_image := (match metadata with
          | some m => m.mainImage
          | none => st.current_data.poll_image),
        candidates := candidates,
        total_votes := total,
        last_updated := some ⟨nowTs, nowLabel⟩,
        error := none }
    let hist := dequeSnoc HISTORY_CAPACITY st.vote_history snap
    if WRITE_INTERVAL ≤ nowTs - st.last_write_time then
      let xlsx := write_result_file cd hist st.last_write_snapshot st.xlsx_rows nowLabel
      let queue := write_google_sheet cd hist st.last_write_snapshot st.gs nowLabel
      let baseline :=
        if hasTrackedPair cd.candidates then
          some ((trackedVotes cd.candidates doranName).getD 0,
            (trackedVotes cd.candidates gumaName).getD 0)
        else st.last_write_snapshot
      { st with
          vote_history := hist,
          current_data := cd,
          xlsx_rows := xlsx,
          gs := { st.gs with queue := queue },
          last_write_time := nowTs,
          last_write_snapshot := baseline }
    else
      { st with
          vote_history := hist,
          current_data := cd }

/-- C8: a tick whose results fetch returns null leaves every piece of
prior state untouched — ring buffer, candidate list, totals, last-updated
stamp, previous-day state, both sinks and the throttle state — and only
the soft error field changes, to the fixed message when it was unset and
to its old value otherwise; and any successful fetch clears the error
field to none. -/
theorem c8_null_fetch_soft_error
    (st : ServerState) (metadata : Option Metadata) (nowTs : ℚ) (nowLabel : String) :
    ((fetch_poll_data st metadata none nowTs nowLabel).vote_history = st.vote_history ∧
     (fetch_poll_data st metadata none nowTs nowLabel).current_data.candidates
        = st.current_data.candidates ∧
     (fetch_poll_data st metadata none nowTs nowLabel).current_data.total_votes
        = st.current_data.total_votes ∧
     (fetch_poll_data st metadata none nowTs nowLabel).current_data.last_updated
        = st.current_data.last_updated ∧
     (fetch_poll_data st metadata none nowTs nowLabel).day = st.day ∧
     (fetch_poll_data st metadata none nowTs nowLabel).xlsx_rows = st.xlsx_rows ∧
     (fetch_poll_data st metadata none nowTs nowLabel).gs = st.gs ∧
     (fetch_poll_data st metadata none nowTs nowLabel).last_write_time
        = st.last_write_time ∧
     (fetch_poll_data st metadata none nowTs nowLabel).last_write_snapshot
        = st.last_write_snapshot ∧
     (fetch_poll_data st metadata none nowTs nowLabel).current_data.error
        = some ((st.current_data.error).getD FETCH_FAIL_MSG)) ∧
    (∀ rs : ResultSet,
      (fetch_poll_data st metadata (some rs) nowTs nowLabel).current_data.error
        = none) := by
  constructor
  · refine ⟨rfl, rfl, rfl, rfl, rfl, rfl, rfl, rfl, rfl, ?_⟩
    cases h : st.current_data.error with
    | none => simp [fetch_poll_data, h]
    | some e => simp [fetch_poll_data, h]
  · intro rs
    simp only [fetch_poll_data]
    split <;> rfl

/-- A start state for the concrete write-path scenarios: empty history,
empty sinks, throttle zeroed. -/
def c3Start : ServerState :=
  { vote_history := [],
    current_data := ⟨"", "", "", [], 0, none, none⟩,
    last_write_time := 0,
    last_write_snapshot := none,
    xlsx_rows := [],
    gs := ⟨false, [], 0, [], none⟩,
    day := ⟨⟨none, none, 0, none, 0, 0, false⟩, none⟩,
    prev_day_loaded := false }

/-- A result set carrying only one of the two tracked candidates. -/
def c3Results : ResultSet := ⟨[⟨"opt1", "T1 Doran", [], 10⟩]⟩

/-- C3 counterexample: a snapshot with only one tracked candidate present
and the write interval elapsed appends nothing to either sink, yet the
write path is not a no-op on the throttle state — the in-memory last-write
time is advanced to the tick time, contradicting the claim that no
throttle state is mutated. -/
theorem c3_counterexample :
    hasTrackedPair (c3Results.questionOptionResults.map candidate_of_option) = false ∧
    (fetch_poll_data c3Start none (some c3Results) 100 "2026-02-25 16:29:30").xlsx_rows
      = c3Start.xlsx_rows ∧
    (fetch_poll_data c3Start none (some c3Results) 100 "2026-02-25 16:29:30").gs.queue
      = c3Start.gs.queue ∧
    (fetch_poll_data c3Start none (some c3Results) 100 "2026-02-25 16:29:30").last_write_time
      ≠ c3Start.last_write_time := by
  have hpair : hasTrackedPair (c3Results.questionOptionResults.map candidate_of_option)
      = false := by decide
  have hw : WRITE_INTERVAL ≤ (100 : ℚ) - c3Start.last_write_time := by
    show WRITE_INTERVAL ≤ (100 : ℚ) - (0 : ℚ)
    norm_num [WRITE_INTERVAL]
  refine ⟨hpair, ?_, ?_, ?_⟩
  · simp [fetch_poll_data, hw, write_result_file, write_google_sheet, hpair]
  · simp [fetch_poll_data, hw, write_result_file, write_google_sheet, hpair]
  · simp only [fetch_poll_data, hw, if_true, if_pos]
    show (100 : ℚ) ≠ c3Start.last_write_time
    show (100 : ℚ) ≠ (0 : ℚ)
    norm_num

/-- C3 amended: with fewer than two tracked candidates in the snapshot,
no row is appended to the local sink, nothing is enqueued for (or written
to) the remote sink, the remote marker and the last-written baseline are
untouched — but the in-memory last-write time still advances to the tick
time whenever the write interval had elapsed. -/
theorem c3_no_row_when_pair_missing
    (st : ServerState) (metadata : Option Metadata) (rs : ResultSet)
    (nowTs : ℚ) (nowLabel : String)
    (h : hasTrackedPair (rs.questionOptionResults.map candidate_of_option) = false) :
    (fetch_poll_data st metadata (some rs) nowTs nowLabel).xlsx_rows = st.xlsx_rows ∧
    (fetch_poll_data st metadata (some rs) nowTs nowLabel).gs.queue = st.gs.queue ∧
    (fetch_poll_data st metadata (some rs) nowTs nowLabel).gs.rows = st.gs.rows ∧
    (fetch_poll_data st metadata (some rs) nowTs nowLabel).gs.throttleMarker
      = st.gs.throttleMarker ∧
    (fetch_poll_data st metadata (some rs) nowTs nowLabel).gs.initialized
      = st.gs.initialized ∧
    (fetch_poll_data st metadata (some rs) nowTs nowLabel).last_write_snapshot
      = st.last_write_snapshot ∧
    (fetch_poll_data st metadata (some rs) nowTs nowLabel).last_write_time
      = (if WRITE_INTERVAL ≤ nowTs - st.last_write_time then nowTs
         else st.last_write_time) := by
  by_cases hw : WRITE_INTERVAL ≤ nowTs - st.last_write_time <;>
    simp [fetch_poll_data, write_result_file, write_google_sheet, hw, h]

/-- C3 witness: the amended statement at the concrete one-tracked-
candidate scenario. -/
theorem c3_no_row_when_pair_missing_witness :
    (fetch_poll_data c3Start none (some c3Results) 100 "2026-02-25 16:29:30").xlsx_rows
      = c3Start.xlsx_rows ∧
    (fetch_poll_data c3Start none (some c3Results) 100 "2026-02-25 16:29:30").gs.queue
      = c3Start.gs.queue ∧
    (fetch_poll_data c3Start none (some c3Results) 100 "2026-02-25 16:29:30").gs.rows
      = c3Start.gs.rows ∧
    (fetch_poll_data c3Start none (some c3Results) 100 "2026-02-25 16:29:30").gs.throttleMarker
      = c3Start.gs.throttleMarker ∧
    (fetch_poll_data c3Start none (some c3Results) 100 "2026-02-25 16:29:30").gs.initialized
      = c3Start.gs.initialized ∧
    (fetch_poll_data c3Start none (some c3Results) 100 "2026-02-25 16:29:30").last_write_snapshot
      = c3Start.last_write_snapshot ∧
    (fetch_poll_data c3Start none (some c3Results) 100 "2026-02-25 16:29:30").last_write_time
      = (if WRITE_INTERVAL ≤ (100 : ℚ) - c3Start.last_write_time then (100 : ℚ)
         else c3Start.last_write_time) :=
  c3_no_row_when_pair_missing c3Start none c3Results 100 "2026-02-25 16:29:30"
    (by decide)

/-! ## The velocity computation of api_current (server.py lines 928-965)

Velocity is computed from the two most recent vote_history snapshots.
Python round(x, 1) is modelled as rounding to the nearest tenth with ties
to even (the round builtin's behaviour); for the concrete values of the
claims, float arithmetic and exact rational arithmetic agree at one
decimal. -/

/-- Round to the nearest integer, ties to even, as the round builtin. -/
def roundHalfEven (q : ℚ) : Int :=
  if q - (⌊q⌋ : ℚ) < 1/2 then ⌊q⌋
  else if (1/2 : ℚ) < q - (⌊q⌋ : ℚ) then ⌊q⌋ + 1
  else if ⌊q⌋ % 2 = 0 then ⌊q⌋ else ⌊q⌋ + 1

/-- Python round(x, 1). -/
def round1 (q : ℚ) : ℚ := ((roundHalfEven (q * 10) : Int) : ℚ) / 10

/-- The prev_map lookup of api_current (server.py line 944): a dict keyed
by the raw (untrimmed) candidate name, later entries winning. -/
def rawVotesLookup (cands : List Candidate) (key : String) : Option Nat :=
  ((cands.filter (fun c => c.name = key)).getLast?).map (fun c => c.votes)

/-- vote_history[-1] and vote_history[-2] when the buffer holds at least
two snapshots: returns (previous, latest). -/
def latestTwo (hist : List Snapshot) : Option (Snapshot × Snapshot) :=
  match hist.reverse with
  | latest :: previous :: _ => some (previous, latest)
  | _ => none

/-- The elapsed minutes between the two snapshots, clamped below at the
literal 0.0167 (server.py line 942). -/
def api_minutes (previous latest : Snapshot) : ℚ :=
  max ((latest.tsSec - previous.tsSec) / 60) 0.0167

/-- One candidate as enriched by api_current. -/
structure ApiCandidate where
  cand : Candidate
  velocity : ℚ
  diff : Int
  gap_from_first : Int
deriving DecidableEq

/-- Embedding of the enrichment loop of api_current (server.py lines
931-965): with two snapshots available each candidate gains
velocity = round((votes - prevVotes) / minutes, 1), the raw diff and the
gap from the leader; with fewer snapshots velocity and diff are zero. -/
def api_enrich (hist : List Snapshot) (cands : List Candidate) : List ApiCandidate :=
  let first := ((cands.map (fun c => c.votes)).max?).getD 0
  match latestTwo hist with
  | some pl =>
    cands.map (fun c =>
      let prevVotes := (rawVotesLookup pl.1.candidates c.name).getD c.votes
      let diff : Int := (c.votes : Int) - (prevVotes : Int)
      { cand := c, velocity := round1 ((diff : ℚ) / api_minutes pl.1 pl.2),
        diff := diff, gap_from_first := (first : Int) - (c.votes : Int) })
  | none =>
    cands.map (fun c =>
      { cand := c, velocity := 0, diff := 0,
        gap_from_first := (first : Int) - (c.votes : Int) })

/-- Snapshot pair of the first spec example: 60 seconds apart, the
candidate moving 1000 to 1100 votes. -/
def c4PrevA : Snapshot := ⟨0, "2026-02-25 16:29:00", [⟨"x1", "X", "", 1000⟩], 1000⟩

/-- Latest snapshot of the first spec example. -/
def c4LatestA : Snapshot := ⟨60, "2026-02-25 16:30:00", [⟨"x1", "X", "", 1100⟩], 1100⟩

/-- Snapshot pair of the second spec example: half a second apart, the
candidate moving 1000 to 1001 votes. -/
def c4PrevB : Snapshot := ⟨0, "2026-02-25 16:29:00", [⟨"x1", "X", "", 1000⟩], 1000⟩

/-- Latest snapshot of the second spec example. -/
def c4LatestB : Snapshot := ⟨1/2, "2026-02-25 16:29:00", [⟨"x1", "X", "", 1001⟩], 1001⟩

/-- The clamped minutes of the second example: the elapsed 1/120 minute is
below the clamp, so the literal 0.0167 wins. -/
theorem c4_minutes_B : api_minutes c4PrevB c4LatestB = 167/10000 := by
  show max (((1/2 : ℚ) - 0) / 60) 0.0167 = 167/10000
  rw [max_eq_right (by norm_num)]
  norm_num

/-- Rounding the second example velocity: 10000/167 is about 59.88, which
rounds at one decimal to 59.9. -/
theorem c4_round_B : round1 ((10000 : ℚ) / 167) = 599/10 := by
  have h1 : ((10000 : ℚ) / 167) * 10 = 100000/167 := by norm_num
  have hf : ⌊(100000/167 : ℚ)⌋ = 598 := by norm_num
  unfold round1 roundHalfEven
  rw [h1, hf]
  rw [if_neg (by norm_num), if_pos (by norm_num)]
  norm_num

/-- The clamped minutes of the first example: a full minute elapsed, well
above the clamp. -/
theorem c4_minutes_A : api_minutes c4PrevA c4LatestA = 1 := by
  show max (((60 : ℚ) - 0) / 60) 0.0167 = 1
  rw [max_eq_left (by norm_num)]
  norm_num

/-- Rounding the first example velocity: 100 is exact. -/
theorem c4_round_A : round1 (100 : ℚ) = 100 := by
  have h1 : ((100 : ℚ)) * 10 = 1000 := by norm_num
  have hf : ⌊(1000 : ℚ)⌋ = 1000 := by norm_num
  unfold round1 roundHalfEven
  rw [h1, hf]
  rw [if_pos (by norm_num)]
  norm_num

/-- Evaluation of the enrichment on the first example pair. -/
theorem c4_enrichA_eval :
    (api_enrich [c4PrevA, c4LatestA] c4LatestA.candidates).map (fun a => a.velocity)
      = [100] := by
  have hlook : rawVotesLookup c4PrevA.candidates "X" = some 1000 := by decide
  have hlt : latestTwo [c4PrevA, c4LatestA] = some (c4PrevA, c4LatestA) := rfl
  simp only [api_enrich, hlt]
  rw [show c4LatestA.candidates = [⟨"x1", "X", "", 1100⟩] from rfl]
  simp only [List.map_cons, List.map_nil]
  rw [hlook, c4_minutes_A]
  norm_num [c4_round_A]

/-- Evaluation of the enrichment on the second example pair. -/
theorem c4_enrichB_eval :
    (api_enrich [c4PrevB, c4LatestB] c4LatestB.candidates).map (fun a => a.velocity)
      = [599/10] := by
  have hlook : rawVotesLookup c4PrevB.candidates "X" = some 1000 := by decide
  have hlt : latestTwo [c4PrevB, c4LatestB] = some (c4PrevB, c4LatestB) := rfl
  simp only [api_enrich, hlt]
  rw [show c4LatestB.candidates = [⟨"x1", "X", "", 1001⟩] from rfl]
  simp only [List.map_cons, List.map_nil]
  rw [hlook, c4_minutes_B]
  norm_num [c4_round_B]

/-- C4 counterexample: with snapshots half a second apart and the vote
count moving 1000 to 1001, api_current reports velocity 59.9 — not the
60.0 the claim states — because the clamp is the literal 0.0167 minute
and the quotient is rounded to one decimal. -/
theorem c4_counterexample :
    (api_enrich [c4PrevB, c4LatestB] c4LatestB.candidates).map (fun a => a.velocity)
      = [599/10] ∧ (599/10 : ℚ) ≠ 60 := by
  refine ⟨c4_enrichB_eval, by norm_num⟩

/-- C4 amended: each enriched candidate's velocity is the vote diff
against the raw-name lookup in the previous snapshot (defaulting to the
current votes), divided by the elapsed minutes clamped below at 0.0167,
and rounded to one decimal; the 60 second example gives 100.0 as claimed,
but the half-second example gives 59.9, not 60.0. -/
theorem c4_velocity_formula
    (hist : List Snapshot) (cands : List Candidate)
    (previous latest : Snapshot)
    (h : latestTwo hist = some (previous, latest)) :
    (∀ a ∈ api_enrich hist cands,
      a.velocity = round1 (((((a.cand.votes : Int)
          - ((rawVotesLookup previous.candidates a.cand.name).getD a.cand.votes : Int)) : Int) : ℚ)
        / api_minutes previous latest)) ∧
    (api_enrich [c4PrevA, c4LatestA] c4LatestA.candidates).map (fun a => a.velocity)
      = [100] ∧
    (api_enrich [c4PrevB, c4LatestB] c4LatestB.candidates).map (fun a => a.velocity)
      = [599/10] := by
  refine ⟨?_, c4_enrichA_eval, c4_enrichB_eval⟩
  intro a ha
  simp only [api_enrich, h, List.mem_map] at ha
  obtain ⟨c, _, rfl⟩ := ha
  rfl

/-- C4 witness: the velocity formula applied to the concrete second
example history. -/
theorem c4_velocity_formula_witness :
    (∀ a ∈ api_enrich [c4PrevB, c4LatestB] c4LatestB.candidates,
      a.velocity = round1 (((((a.cand.votes : Int)
          - ((rawVotesLookup c4PrevB.candidates a.cand.name).getD a.cand.votes : Int)) : Int) : ℚ)
        / api_minutes c4PrevB c4LatestB)) ∧
    (api_enrich [c4PrevA, c4LatestA] c4LatestA.candidates).map (fun a => a.velocity)
      = [100] ∧
    (api_enrich [c4PrevB, c4LatestB] c4LatestB.candidates).map (fun a => a.velocity)
      = [599/10] :=
  c4_velocity_formula [c4PrevB, c4LatestB] c4LatestB.candidates c4PrevB c4LatestB rfl

end VoteTracker
